import Mathlib

/-!
Shallow embedding of the two services of this repository:
  * `store_api.py`  — a MongoDB-backed product catalog (ProductRepository,
    ProductUseCases, route handlers);
  * `workoutapi.py` — a SQLAlchemy/SQLite-backed crossfit API (athlete CRUD
    with integrity-error handling and a name-resolution model for the
    module's binding environment).

Machine details are modelled explicitly: BSON ObjectIds are natural numbers
rendered as 24 lowercase hex characters (`str(ObjectId)`), parsed back
case-insensitively (`ObjectId(s)`); `datetime.utcnow()` readings are passed
in as explicit `Nat` parameters; float prices are modelled as `Rat`
(every price literal appearing in the repository is exactly representable);
the Mongo collection and the SQLite tables are lists of records threaded
through each operation.
-/

/-! ## Generic string helpers (models of Python's `in` and `.lower()`) -/

/-- Model of list-prefix testing used by the substring check below. -/
def listStartsWith : List Char → List Char → Bool
  | [], _ => true
  | _ :: _, [] => false
  | a :: as, b :: bs => a == b && listStartsWith as bs

/-- `containsSub needle l` decides whether `needle` occurs as a contiguous
sublist of `l`. -/
def containsSub (needle : List Char) : List Char → Bool
  | [] => listStartsWith needle []
  | c :: rest => listStartsWith needle (c :: rest) || containsSub needle rest

/-- Model of Python's `pat in s` substring test. -/
def strContains (s pat : String) : Bool :=
  containsSub pat.data s.data

/-- ASCII lower-casing of a single character (model of `str.lower` per char). -/
def lowerChar (c : Char) : Char :=
  if 65 ≤ c.toNat ∧ c.toNat ≤ 90 then Char.ofNat (c.toNat + 32) else c

/-- Model of Python's `s.lower()`. -/
def pyLower (s : String) : String :=
  ⟨s.data.map lowerChar⟩

theorem listStartsWith_refl (l : List Char) : listStartsWith l l = true := by
  induction l with
  | nil => rfl
  | cons a as ih => simp [listStartsWith, ih]

theorem containsSub_append_self (pre needle : List Char) :
    containsSub needle (pre ++ needle) = true := by
  induction pre with
  | nil =>
    cases needle with
    | nil => rfl
    | cons c cs => simp [containsSub, listStartsWith_refl]
  | cons a as ih => simp [containsSub, ih]

/-- A string contains every suffix of itself; in particular a message built
as `prefixText ++ v` contains `v`. -/
theorem strContains_append_right (s t : String) :
    strContains (s ++ t) t = true := by
  have h : (s ++ t).data = s.data ++ t.data := String.data_append s t
  simp [strContains, h, containsSub_append_self]

/-! ## BSON ObjectId model

`str(ObjectId)` renders the 12-byte id as 24 lowercase hex characters;
`ObjectId.is_valid(s)` checks that `s` is a 24-character hex string;
`ObjectId(s)` parses hex case-insensitively.  We model the id value as a
`Nat` below `16 ^ 24`. -/

def isHexChar (c : Char) : Bool :=
  (('0' ≤ c) && (c ≤ '9')) || (('a' ≤ c) && (c ≤ 'f')) || (('A' ≤ c) && (c ≤ 'F'))

/-- Hex digit character for a value `< 16` (lowercase, as `str(ObjectId)`). -/
def hexDigitChar (n : Nat) : Char :=
  if n < 10 then Char.ofNat (48 + n) else Char.ofNat (87 + n)

/-- Numeric value of a hex digit character (case-insensitive, as `ObjectId(s)`). -/
def hexCharVal (c : Char) : Nat :=
  if c ≤ '9' then c.toNat - 48
  else if c ≤ 'F' then c.toNat - 55
  else c.toNat - 87

/-- Big-endian rendering of `n` as exactly `k` hex characters. -/
def natToHexChars : Nat → Nat → List Char
  | 0, _ => []
  | k + 1, n => natToHexChars k (n / 16) ++ [hexDigitChar (n % 16)]

/-- Big-endian hex parse of a character list. -/
def hexListToNat (l : List Char) : Nat :=
  l.foldl (fun a c => a * 16 + hexCharVal c) 0

/-- Model of `str(oid)` for an ObjectId value. -/
def oidToString (n : Nat) : String :=
  ⟨natToHexChars 24 n⟩

/-- Model of `ObjectId(s)` applied to a string that passed `is_valid`. -/
def hexToNat (s : String) : Nat :=
  hexListToNat s.data

/-- Model of `bson.ObjectId.is_valid` on strings: exactly 24 hex characters. -/
def ObjectId_is_valid (s : String) : Bool :=
  s.length == 24 && s.data.all isHexChar

theorem hexCharVal_hexDigitChar (d : Nat) (hd : d < 16) :
    hexCharVal (hexDigitChar d) = d := by
  interval_cases d <;> decide

theorem isHexChar_hexDigitChar (d : Nat) (hd : d < 16) :
    isHexChar (hexDigitChar d) = true := by
  interval_cases d <;> decide

theorem natToHexChars_length (k : Nat) : ∀ n, (natToHexChars k n).length = k := by
  induction k with
  | zero => intro n; rfl
  | succ k ih =>
    intro n
    simp [natToHexChars, List.length_append, ih]

theorem natToHexChars_all_hex (k : Nat) :
    ∀ n, (natToHexChars k n).all isHexChar = true := by
  induction k with
  | zero => intro n; rfl
  | succ k ih =>
    intro n
    have hdig := isHexChar_hexDigitChar (n % 16) (Nat.mod_lt _ (by norm_num))
    simp [natToHexChars, List.all_append, ih, hdig]

theorem hexListToNat_natToHexChars (k : Nat) :
    ∀ n, hexListToNat (natToHexChars k n) = n % 16 ^ k := by
  induction k with
  | zero => intro n; simp [natToHexChars, hexListToNat, Nat.mod_one]
  | succ k ih =>
    intro n
    have happ : hexListToNat (natToHexChars k (n / 16) ++ [hexDigitChar (n % 16)])
        = hexListToNat (natToHexChars k (n / 16)) * 16 + hexCharVal (hexDigitChar (n % 16)) := by
      simp [hexListToNat, List.foldl_append]
    rw [natToHexChars, happ, ih, hexCharVal_hexDigitChar _ (Nat.mod_lt _ (by norm_num))]
    rw [pow_succ']
    rw [Nat.mod_mul]
    generalize n / 16 % 16 ^ k = q
    omega

/-- Round trip: parsing the rendered id recovers the id value. -/
theorem hexToNat_oidToString (n : Nat) (h : n < 16 ^ 24) :
    hexToNat (oidToString n) = n := by
  have := hexListToNat_natToHexChars 24 n
  simp only [hexToNat, oidToString] at *
  rw [this, Nat.mod_eq_of_lt h]

theorem oidToString_length (n : Nat) : (oidToString n).length = 24 := by
  simp only [oidToString, String.length]
  exact natToHexChars_length 24 n

/-- The rendered id passes `ObjectId.is_valid`. -/
theorem ObjectId_is_valid_oidToString (n : Nat) :
    ObjectId_is_valid (oidToString n) = true := by
  have h1 := oidToString_length n
  have h2 : (oidToString n).data.all isHexChar = true := natToHexChars_all_hex 24 n
  simp [ObjectId_is_valid, h1, h2]

/-- The rendered id is a non-empty string. -/
theorem oidToString_ne_empty (n : Nat) : oidToString n ≠ "" := by
  intro h
  have := oidToString_length n
  rw [h] at this
  simp [String.length] at this

/-! ## store_api.py — schemas and exceptions -/

/-- HTTP error response as produced by `HTTPException(status_code, detail)`:
the caller observes both the status code and the detail string (FastAPI
serializes the detail into the response body). -/
structure HTTPError where
  status_code : Nat
  detail : String
deriving DecidableEq, Repr

/-- The module's exception classes (`ProductNotFoundException`,
`ProductCreationException`, `ProductUpdateException`), carrying the message
passed at raise time (`str(e)`). -/
inductive ProductExc where
  | ProductNotFoundException (msg : String)
  | ProductCreationException (msg : String)
  | ProductUpdateException (msg : String)
deriving DecidableEq, Repr

/-- Schema `ProductCreate` (= `ProductBase`): name, optional description,
price, category.  Prices are modelled as `Rat`. -/
structure ProductCreate where
  name : String
  description : Option String
  price : Rat
  category : String
deriving DecidableEq, Repr

/-- The declarative field constraints of `ProductBase` (pydantic `Field`):
name 1–100 chars, description at most 500 chars when present, price > 0,
category 1–50 chars. -/
def ProductCreate.valid (p : ProductCreate) : Bool :=
  decide (1 ≤ p.name.length) && decide (p.name.length ≤ 100) &&
  (match p.description with
   | none => true
   | some d => decide (d.length ≤ 500)) &&
  decide (0 < p.price) &&
  decide (1 ≤ p.category.length) && decide (p.category.length ≤ 50)

/-- Schema `ProductUpdate` after `model_dump(exclude_unset=True)`: a field is
`some v` exactly when the caller supplied it.  `description` may be supplied
as an explicit null (`some none`).  Supplying an explicit null for the other
constrained fields would corrupt the stored record and is outside the
behavior the spec describes, so those fields carry proper values when set. -/
structure ProductUpdate where
  name : Option String
  description : Option (Option String)
  price : Option Rat
  category : Option String
  updated_at : Option Nat
deriving DecidableEq, Repr

/-- Number of fields the caller supplied in the partial update. -/
def ProductUpdate.setCount (u : ProductUpdate) : Nat :=
  (if u.name.isSome then 1 else 0) +
  (if u.description.isSome then 1 else 0) +
  (if u.price.isSome then 1 else 0) +
  (if u.category.isSome then 1 else 0) +
  (if u.updated_at.isSome then 1 else 0)

/-- A document of the `products` collection: the engine-assigned `_id`
(`oid`) plus the fields written by `create`/`update`. -/
structure ProductDoc where
  oid : Nat
  name : String
  description : Option String
  price : Rat
  category : String
  created_at : Nat
  updated_at : Nat
deriving DecidableEq, Repr

/-- Schema `ProductInDB` (= `ProductResponse`): the document with `_id`
rendered to the string field `id`. -/
structure ProductInDB where
  id : String
  name : String
  description : Option String
  price : Rat
  category : String
  created_at : Nat
  updated_at : Nat
deriving DecidableEq, Repr

/-- The `products` collection: documents in natural order plus the engine's
next fresh ObjectId value. -/
structure Collection where
  docs : List ProductDoc
  nextOid : Nat
deriving DecidableEq, Repr

/-- Model of `collection.find_one with a filter on _id`: first document in natural
order whose `_id` equals the given ObjectId value. -/
def Collection.find_one (c : Collection) (oid : Nat) : Option ProductDoc :=
  c.docs.find? (fun d => d.oid == oid)

/-- Model of `_convert_to_product_in_db`: copies the document's fields and
renders `_id` with `str`. -/
def convert_to_product_in_db (d : ProductDoc) : ProductInDB :=
  { id := oidToString d.oid
    name := d.name
    description := d.description
    price := d.price
    category := d.category
    created_at := d.created_at
    updated_at := d.updated_at }

/-! ## store_api.py — ProductRepository -/

/-- Model of `ProductRepository.create`.  The two `datetime.utcnow()` calls
are the explicit parameters `nowC` (for `created_at`) and `nowU` (for
`updated_at`); `insert_one` appends a document carrying the engine's fresh
`_id`; the code then re-reads the inserted id with `find_one` and converts.
The `none` branch models the `except` clause wrapping the body
(`ProductCreationException`); it is unreachable because the document was
just inserted. -/
def ProductRepository.create (nowC nowU : Nat) (product : ProductCreate)
    (c : Collection) : Except ProductExc ProductInDB × Collection :=
  let doc : ProductDoc :=
    { oid := c.nextOid
      name := product.name
      description := product.description
      price := product.price
      category := product.category
      created_at := nowC
      updated_at := nowU }
  let c' : Collection := { docs := c.docs ++ [doc], nextOid := c.nextOid + 1 }
  match c'.find_one c.nextOid with
  | some created_product => (.ok (convert_to_product_in_db created_product), c')
  | none => (.error (.ProductCreationException "Error creating product"), c')

/-- Model of `ProductRepository.get_by_id`: invalid id format raises
`ProductNotFoundException("Invalid product ID")`; a well-formed id that
matches nothing raises `ProductNotFoundException` with the id in the
message; otherwise the found document is converted. -/
def ProductRepository.get_by_id (product_id : String) (c : Collection) :
    Except ProductExc ProductInDB :=
  if ObjectId_is_valid product_id = false then
    .error (.ProductNotFoundException "Invalid product ID")
  else
    match c.find_one (hexToNat product_id) with
    | none => .error (.ProductNotFoundException
        ("Product with id " ++ product_id ++ " not found"))
    | some product => .ok (convert_to_product_in_db product)

/-- Mongo query filter on `price` built by `list_products`: optional `$gt`
and `$lt` bounds, both strict. -/
structure PriceFilter where
  gt : Option Rat
  lt : Option Rat
deriving DecidableEq, Repr

/-- Whether a document matches the query dict passed to `find`:
`none` models the empty dict `{}`. -/
def matchesFilter (f : Option PriceFilter) (d : ProductDoc) : Bool :=
  match f with
  | none => true
  | some pf =>
    (match pf.gt with | none => true | some m => decide (m < d.price)) &&
    (match pf.lt with | none => true | some M => decide (d.price < M))

/-- Model of `ProductRepository.get_all`: `find(query).skip(skip).limit(limit)`
in natural order, then conversion.  (The route layer constrains
`limit ≥ 1`, so Mongo's special `limit(0)` case never arises.) -/
def ProductRepository.get_all (skip limit : Nat) (filters : Option PriceFilter)
    (c : Collection) : List ProductInDB :=
  (((c.docs.filter (matchesFilter filters)).drop skip).take limit).map
    convert_to_product_in_db

/-- Model of `$set` with the fields present in the update document:
each supplied field overwrites the stored one, the rest are untouched.
`_id` and `created_at` are never in the update document. -/
def applySet (u : ProductUpdate) (d : ProductDoc) : ProductDoc :=
  { d with
    name := u.name.getD d.name
    description := match u.description with | some v => v | none => d.description
    price := u.price.getD d.price
    category := u.category.getD d.category
    updated_at := u.updated_at.getD d.updated_at }

/-- Model of `update_one` on the document list: Mongo updates the first
document matching the `_id` filter; `none` means `matched_count == 0`. -/
def update_first (oid : Nat) (u : ProductUpdate) : List ProductDoc → Option (List ProductDoc)
  | [] => none
  | d :: rest =>
    if d.oid == oid then some (applySet u d :: rest)
    else (update_first oid u rest).map (fun l => d :: l)

/-- Model of `collection.update_one`: returns `matched_count` and the
updated collection. -/
def Collection.update_one (c : Collection) (oid : Nat) (u : ProductUpdate) :
    Nat × Collection :=
  match update_first oid u c.docs with
  | some docs' => (1, { c with docs := docs' })
  | none => (0, c)

/-- Model of `ProductRepository.update`: invalid id raises not-found;
`update_data = model_dump(exclude_unset=True)` gains
`updated_at = utcnow()` when the caller did not supply it; `update_one`
with `$set`; `matched_count == 0` raises not-found; otherwise the document
is re-read and converted.  The final `none` branch models the conversion
failing on a vanished document and is unreachable. -/
def ProductRepository.update (now : Nat) (product_id : String)
    (product : ProductUpdate) (c : Collection) :
    Except ProductExc ProductInDB × Collection :=
  if ObjectId_is_valid product_id = false then
    (.error (.ProductNotFoundException "Invalid product ID"), c)
  else
    let update_data :=
      if product.updated_at.isNone then { product with updated_at := some now }
      else product
    let r := c.update_one (hexToNat product_id) update_data
    (if r.1 == 0 then
      .error (.ProductNotFoundException
        ("Product with id " ++ product_id ++ " not found"))
    else
      match r.2.find_one (hexToNat product_id) with
      | some updated_product => .ok (convert_to_product_in_db updated_product)
      | none => .error (.ProductUpdateException "Error updating product"), r.2)

/-- Model of `delete_one` on the document list: removes the first document
matching the `_id` filter; `none` means `deleted_count == 0`. -/
def delete_first (oid : Nat) : List ProductDoc → Option (List ProductDoc)
  | [] => none
  | d :: rest =>
    if d.oid == oid then some rest
    else (delete_first oid rest).map (fun l => d :: l)

/-- Model of `collection.delete_one`: returns `deleted_count` and the
updated collection. -/
def Collection.delete_one (c : Collection) (oid : Nat) : Nat × Collection :=
  match delete_first oid c.docs with
  | some docs' => (1, { c with docs := docs' })
  | none => (0, c)

/-- Model of `ProductRepository.delete`: invalid id raises not-found;
otherwise returns `deleted_count > 0`. -/
def ProductRepository.delete (product_id : String) (c : Collection) :
    Except ProductExc Bool × Collection :=
  if ObjectId_is_valid product_id = false then
    (.error (.ProductNotFoundException "Invalid product ID"), c)
  else
    let r := c.delete_one (hexToNat product_id)
    (.ok (decide (0 < r.1)), r.2)

/-! ## store_api.py — ProductUseCases and route handlers -/

/-- Model of `ProductUseCases.list_products`: builds the price filter in the
four forms of the if/elif chain and forwards to the repository. -/
def ProductUseCases.list_products (skip limit : Nat)
    (min_price max_price : Option Rat) (c : Collection) : List ProductInDB :=
  let filters : Option PriceFilter :=
    match min_price, max_price with
    | some m, some M => some { gt := some m, lt := some M }
    | some m, none => some { gt := some m, lt := none }
    | none, some M => some { gt := none, lt := some M }
    | none, none => none
  ProductRepository.get_all skip limit filters c

/-- Exception kinds other than `ProductNotFoundException` propagate out of
the `except` clauses of the read/update/delete handlers; FastAPI turns an
unhandled exception into a 500 response. -/
def unhandledExc (e : ProductExc) : HTTPError :=
  match e with
  | .ProductNotFoundException msg => { status_code := 500, detail := msg }
  | .ProductCreationException msg => { status_code := 500, detail := msg }
  | .ProductUpdateException msg => { status_code := 500, detail := msg }

/-- Route handler for `GET /products/id`: catches
`ProductNotFoundException` and re-raises `HTTPException(404, str(e))`. -/
def get_product (product_id : String) (c : Collection) :
    Except HTTPError ProductInDB :=
  match ProductRepository.get_by_id product_id c with
  | .ok r => .ok r
  | .error (.ProductNotFoundException msg) =>
      .error { status_code := 404, detail := msg }
  | .error e => .error (unhandledExc e)

/-- Route handler for `PATCH /products/id`: catches
`ProductNotFoundException` and re-raises `HTTPException(404, str(e))`. -/
def update_product (now : Nat) (product_id : String) (product : ProductUpdate)
    (c : Collection) : Except HTTPError ProductInDB × Collection :=
  match ProductRepository.update now product_id product c with
  | (.ok r, c') => (.ok r, c')
  | (.error (.ProductNotFoundException msg), c') =>
      (.error { status_code := 404, detail := msg }, c')
  | (.error e, c') => (.error (unhandledExc e), c')

/-- Route handler for `DELETE /products/id` (success is 204 with empty
body, modelled as `.ok ()`): a `false` return from the repository raises
`HTTPException(404, ...)`, and `ProductNotFoundException` from the
repository (malformed id) is caught and re-raised as 404. -/
def delete_product (product_id : String) (c : Collection) :
    Except HTTPError Unit × Collection :=
  match ProductRepository.delete product_id c with
  | (.ok deleted, c') =>
      if deleted then (.ok (), c')
      else (.error { status_code := 404
                     detail := "Product with id " ++ product_id ++ " not found" }, c')
  | (.error (.ProductNotFoundException msg), c') =>
      (.error { status_code := 404, detail := msg }, c')
  | (.error e, c') => (.error (unhandledExc e), c')

/-! ## Helper lemmas about the collection operations -/

theorem applySet_oid (u : ProductUpdate) (d : ProductDoc) :
    (applySet u d).oid = d.oid := rfl

theorem applySet_created_at (u : ProductUpdate) (d : ProductDoc) :
    (applySet u d).created_at = d.created_at := rfl

/-- After inserting a document with `_id = n`, `find_one` on `n` succeeds and
returns a document whose `_id` is `n` (the inserted one, or an earlier
duplicate of the same id — in either case the same document both times). -/
theorem find?_append_singleton (l : List ProductDoc) (doc : ProductDoc) (n : Nat)
    (h : doc.oid = n) :
    ∃ found, (l ++ [doc]).find? (fun d => d.oid == n) = some found ∧ found.oid = n := by
  cases hf : (l ++ [doc]).find? (fun d => d.oid == n) with
  | none =>
    exfalso
    have hmem : doc ∈ l ++ [doc] := List.mem_append_right l (List.mem_singleton_self doc)
    have := List.find?_eq_none.mp hf doc hmem
    simp [h] at this
  | some found =>
    have hp := List.find?_some hf
    exact ⟨found, rfl, by simpa using hp⟩

theorem update_first_eq_none_iff (oid : Nat) (u : ProductUpdate) :
    ∀ l : List ProductDoc,
      update_first oid u l = none ↔ l.find? (fun d => d.oid == oid) = none := by
  intro l
  induction l with
  | nil => simp [update_first]
  | cons d rest ih =>
    by_cases h : (d.oid == oid) = true
    · simp [update_first, List.find?_cons, h]
    · have hf : (d.oid == oid) = false := by simpa using h
      simp [update_first, List.find?_cons, hf, Option.map_eq_none', ih]

theorem update_first_find (oid : Nat) (u : ProductUpdate) :
    ∀ (l : List ProductDoc) (d : ProductDoc),
      l.find? (fun x => x.oid == oid) = some d →
      ∃ l', update_first oid u l = some l' ∧
        l'.find? (fun x => x.oid == oid) = some (applySet u d) := by
  intro l
  induction l with
  | nil => intro d h; simp [List.find?] at h
  | cons d0 rest ih =>
    intro d h
    by_cases h0 : (d0.oid == oid) = true
    · simp only [List.find?_cons, h0] at h
      have hd : d0 = d := by injection h
      subst hd
      refine ⟨applySet u d0 :: rest, by simp [update_first, h0], ?_⟩
      have hp : ((applySet u d0).oid == oid) = true := by
        rw [applySet_oid]; exact h0
      simp [List.find?_cons, hp]
    · have h0f : (d0.oid == oid) = false := by simpa using h0
      simp only [List.find?_cons, h0f] at h
      obtain ⟨l'', hupd, hfind⟩ := ih d h
      refine ⟨d0 :: l'', by simp [update_first, h0f, hupd], ?_⟩
      simp only [List.find?_cons, applySet_oid, h0f]
      exact hfind

theorem forall₂_update_first_getD (u : ProductUpdate) (oid : Nat) :
    ∀ l : List ProductDoc,
      List.Forall₂ (fun d d' => d' = d ∨ d' = applySet u d) l
        ((update_first oid u l).getD l) := by
  intro l
  induction l with
  | nil => simp [update_first]
  | cons d rest ih =>
    by_cases h : (d.oid == oid) = true
    · have h1 : update_first oid u (d :: rest) = some (applySet u d :: rest) := by
        simp [update_first, h]
      rw [h1]
      simp only [Option.getD_some]
      exact List.Forall₂.cons (Or.inr rfl)
        (List.forall₂_same.mpr fun x _ => Or.inl rfl)
    · have hf : (d.oid == oid) = false := by simpa using h
      cases hrest : update_first oid u rest with
      | none =>
        have h1 : update_first oid u (d :: rest) = none := by
          simp [update_first, hf, hrest]
        rw [h1]
        simp only [Option.getD_none]
        exact List.forall₂_same.mpr fun x _ => Or.inl rfl
      | some l'' =>
        have h1 : update_first oid u (d :: rest) = some (d :: l'') := by
          simp [update_first, hf, hrest]
        rw [h1]
        simp only [Option.getD_some]
        have ht := ih
        rw [hrest] at ht
        simp only [Option.getD_some] at ht
        exact List.Forall₂.cons (Or.inl rfl) ht

theorem update_one_snd_docs (c : Collection) (oid : Nat) (u : ProductUpdate) :
    (c.update_one oid u).2.docs = (update_first oid u c.docs).getD c.docs := by
  unfold Collection.update_one
  cases update_first oid u c.docs <;> rfl

theorem delete_first_eq_none_iff (oid : Nat) :
    ∀ l : List ProductDoc,
      delete_first oid l = none ↔ l.find? (fun d => d.oid == oid) = none := by
  intro l
  induction l with
  | nil => simp [delete_first]
  | cons d rest ih =>
    by_cases h : (d.oid == oid) = true
    · simp [delete_first, List.find?_cons, h]
    · have hf : (d.oid == oid) = false := by simpa using h
      simp [delete_first, List.find?_cons, hf, Option.map_eq_none', ih]

theorem delete_first_length (oid : Nat) :
    ∀ l l' : List ProductDoc, delete_first oid l = some l' → l'.length + 1 = l.length := by
  intro l
  induction l with
  | nil => intro l' h; simp [delete_first] at h
  | cons d rest ih =>
    intro l' h
    by_cases h0 : (d.oid == oid) = true
    · simp [delete_first, h0] at h
      subst h
      rfl
    · have h0f : (d.oid == oid) = false := by simpa using h0
      simp [delete_first, h0f, Option.map_eq_some'] at h
      obtain ⟨l'', hrest, rfl⟩ := h
      simp [List.length_cons, ih l'' hrest]

/-! ## workoutapi.py — tables and schemas -/

/-- Row of table `centros_treinamento`. -/
structure CentroTreinamentoRow where
  id : Nat
  nome : String
  endereco : Option String
  proprietario : Option String
deriving DecidableEq, Repr

/-- Row of table `categorias`. -/
structure CategoriaRow where
  id : Nat
  nome : String
deriving DecidableEq, Repr

/-- Row of table `atletas` (cpf is the unique national-id-number column). -/
structure AtletaRow where
  id : Nat
  nome : String
  cpf : String
  idade : Int
  peso : Int
  altura : Int
  sexo : String
  centro_treinamento_id : Nat
  categoria_id : Nat
deriving DecidableEq, Repr

/-- Schema `AtletaCreate` (= `AtletaBase`). -/
structure AtletaCreate where
  nome : String
  cpf : String
  idade : Int
  peso : Int
  altura : Int
  sexo : String
  centro_treinamento_id : Nat
  categoria_id : Nat
deriving DecidableEq, Repr

/-- Schema `AtletaUpdate` after `dict(exclude_unset=True)`: a field is
`some v` exactly when supplied.  The schema deliberately exposes no `cpf`
field, mirroring the source. -/
structure AtletaUpdate where
  nome : Option String
  idade : Option Int
  peso : Option Int
  altura : Option Int
  sexo : Option String
  centro_treinamento_id : Option Nat
  categoria_id : Option Nat
deriving DecidableEq, Repr

/-- Schema `AtletaResponse`: the row with its two relations eagerly loaded. -/
structure AtletaResponse where
  id : Nat
  nome : String
  cpf : String
  idade : Int
  peso : Int
  altura : Int
  sexo : String
  centro_treinamento_id : Nat
  categoria_id : Nat
  centro_treinamento : Option CentroTreinamentoRow
  categoria : Option CategoriaRow
deriving DecidableEq, Repr

/-- The relational store: the three tables plus the engine's next athlete
primary key. -/
structure WorkoutDB where
  centros : List CentroTreinamentoRow
  categorias : List CategoriaRow
  atletas : List AtletaRow
  nextAtletaId : Nat
deriving DecidableEq, Repr

/-! ## workoutapi.py — athlete handlers -/

/-- Model of `db.add(Atleta(**atleta.dict())); db.commit()`.  With SQLite's
default configuration the only integrity constraint enforced at write time
is the UNIQUE constraint on `atletas.cpf`; a duplicate raises
`IntegrityError` whose message names the failed constraint column.  Success
appends the row with the engine-assigned primary key. -/
def WorkoutDB.insertAtleta (db : WorkoutDB) (a : AtletaCreate) :
    Except String (AtletaRow × WorkoutDB) :=
  if db.atletas.any (fun r => r.cpf == a.cpf) then
    .error "(sqlite3.IntegrityError) UNIQUE constraint failed: atletas.cpf"
  else
    let row : AtletaRow :=
      { id := db.nextAtletaId
        nome := a.nome
        cpf := a.cpf
        idade := a.idade
        peso := a.peso
        altura := a.altura
        sexo := a.sexo
        centro_treinamento_id := a.centro_treinamento_id
        categoria_id := a.categoria_id }
    .ok (row, { db with
      atletas := db.atletas ++ [row]
      nextAtletaId := db.nextAtletaId + 1 })

/-- Eager relation loading (`selectinload`): the related rows are looked up
by foreign key and embedded in the response. -/
def loadAtletaResponse (db : WorkoutDB) (row : AtletaRow) : AtletaResponse :=
  { id := row.id
    nome := row.nome
    cpf := row.cpf
    idade := row.idade
    peso := row.peso
    altura := row.altura
    sexo := row.sexo
    centro_treinamento_id := row.centro_treinamento_id
    categoria_id := row.categoria_id
    centro_treinamento := db.centros.find? (fun ct => ct.id == row.centro_treinamento_id)
    categoria := db.categorias.find? (fun cat => cat.id == row.categoria_id) }

/-- Model of the re-read after a write: `query(Atleta).options(selectinload ...)
.filter(Atleta.id == atleta_id).first()` with relations loaded. -/
def reloadAtleta (db : WorkoutDB) (atleta_id : Nat) : Option AtletaResponse :=
  (db.atletas.find? (fun r => r.id == atleta_id)).map (loadAtletaResponse db)

/-- Model of the `except IntegrityError` clause of `create_atleta`: the code
lowercases `str(e)`, checks for the substring `cpf`, and raises 303 naming
the request's cpf value, else 400 with a generic message. -/
def create_atleta_error_response (atleta : AtletaCreate) (e : String) : HTTPError :=
  let error_str := pyLower e
  if strContains error_str "cpf" then
    { status_code := 303
      detail := "Já existe um atleta cadastrado com o cpf: " ++ atleta.cpf }
  else
    { status_code := 400, detail := "Erro de integridade dos dados" }

/-- Route handler for `POST /api/v1/atletas/`: insert, then re-read with
relations for the response; on `IntegrityError` the session is rolled back
(the returned store is the original one) and the error is mapped by
`create_atleta_error_response`. -/
def create_atleta (atleta : AtletaCreate) (db : WorkoutDB) :
    Except HTTPError (Option AtletaResponse) × WorkoutDB :=
  match db.insertAtleta atleta with
  | .ok (row, db') => (.ok (reloadAtleta db' row.id), db')
  | .error e => (.error (create_atleta_error_response atleta e), db)

/-- Model of the `setattr` loop of `update_atleta` over
`atleta_data.dict(exclude_unset=True)`: each supplied field overwrites the
row's field.  There is no `cpf` case because `AtletaUpdate` has no such
field. -/
def applyAtletaUpdate (r : AtletaRow) (u : AtletaUpdate) : AtletaRow :=
  { r with
    nome := u.nome.getD r.nome
    idade := u.idade.getD r.idade
    peso := u.peso.getD r.peso
    altura := u.altura.getD r.altura
    sexo := u.sexo.getD r.sexo
    centro_treinamento_id := u.centro_treinamento_id.getD r.centro_treinamento_id
    categoria_id := u.categoria_id.getD r.categoria_id }

/-- Committing the mutated ORM object rewrites the first row with the
matching primary key. -/
def update_first_atleta (atleta_id : Nat) (u : AtletaUpdate) :
    List AtletaRow → List AtletaRow
  | [] => []
  | r :: rest =>
    if r.id == atleta_id then applyAtletaUpdate r u :: rest
    else r :: update_first_atleta atleta_id u rest

/-- Route handler for `PUT /api/v1/atletas/id`: 404 when the id matches
no row; otherwise the supplied fields are written and the row re-read with
relations.  The handler's `except IntegrityError` clause cannot fire in this
model: the update schema cannot touch `cpf`, the only write-time-enforced
constraint. -/
def update_atleta (atleta_id : Nat) (atleta_data : AtletaUpdate) (db : WorkoutDB) :
    Except HTTPError (Option AtletaResponse) × WorkoutDB :=
  match db.atletas.find? (fun r => r.id == atleta_id) with
  | none => (.error { status_code := 404, detail := "Atleta não encontrado" }, db)
  | some _ =>
    let db' := { db with atletas := update_first_atleta atleta_id atleta_data db.atletas }
    (.ok (reloadAtleta db' atleta_id), db')

/-! ## workoutapi.py — the module's binding environment

`get_atletas` annotates its `params` parameter with the name `Params`.
Python evaluates parameter annotations when the `def` statement executes at
module import time, so the names used in them must already be bound (by an
import, an assignment, or an earlier definition) or be builtins.  The lists
below transcribe, in order, what `workoutapi.py` binds before the
`get_atletas` definition executes. -/

/-- Names bound by the import statements of `workoutapi.py` (lines 2–12). -/
def workoutapi_imported_names : List String :=
  ["FastAPI", "APIRouter", "Depends", "HTTPException", "Query", "status",
   "create_engine", "Column", "Integer", "String", "ForeignKey",
   "sessionmaker", "Session", "relationship", "selectinload",
   "declarative_base", "IntegrityError", "BaseModel", "Optional", "List",
   "Page", "add_pagination", "paginate", "os"]

/-- Module-level names assigned or defined before the `get_atletas`
definition executes. -/
def workoutapi_toplevel_names : List String :=
  ["SQLALCHEMY_DATABASE_URL", "engine", "SessionLocal", "Base", "get_db",
   "CentroTreinamento", "Categoria", "Atleta",
   "CentroTreinamentoBase", "CentroTreinamentoCreate", "CentroTreinamentoResponse",
   "CategoriaBase", "CategoriaCreate", "CategoriaResponse",
   "AtletaBase", "AtletaCreate", "AtletaResponse", "AtletaUpdate",
   "app", "router", "integrity_error_handler",
   "get_centros_treinamento", "create_centro_treinamento",
   "get_categorias", "create_categoria"]

/-- Builtin names usable without any binding in the module. -/
def python_builtin_names : List String :=
  ["str", "int", "float", "bool", "list", "dict", "len", "print"]

/-- Whether a name used in an annotation of `workoutapi.py` resolves at the
point where `get_atletas` is defined. -/
def workoutapi_resolves (n : String) : Bool :=
  workoutapi_imported_names.contains n ||
  workoutapi_toplevel_names.contains n ||
  python_builtin_names.contains n

/-- The names referenced by the parameter annotations of `get_atletas`:
`db: Session`, `nome: Optional[str]`, `cpf: Optional[str]`,
`params: Params`. -/
def get_atletas_param_type_names : List String :=
  ["Session", "Optional", "str", "Params"]

/-- Whether the `def get_atletas(...)` statement itself evaluates without a
NameError. -/
def get_atletas_def_evaluates : Bool :=
  get_atletas_param_type_names.all workoutapi_resolves

/-- The parameter-annotation names of every other route handler of
`workoutapi.py`, in source order. -/
def workoutapi_other_handler_param_type_names : List (List String) :=
  [["Session"],
   ["CentroTreinamentoCreate", "Session"],
   ["Session"],
   ["CategoriaCreate", "Session"],
   ["int", "Session"],
   ["AtletaCreate", "Session"],
   ["int", "AtletaUpdate", "Session"],
   ["int", "Session"]]

/-! ## Claim theorems -/

/-- A well-formed id rendered from an ObjectId value below `16 ^ 24` is
looked up successfully by `get_by_id` whenever `find_one` finds a document. -/
theorem get_by_id_of_find_one (c : Collection) (n : Nat) (d : ProductDoc)
    (hlt : n < 16 ^ 24) (hfind : c.find_one n = some d) :
    ProductRepository.get_by_id (oidToString n) c = .ok (convert_to_product_in_db d) := by
  have hv := ObjectId_is_valid_oidToString n
  have hr := hexToNat_oidToString n hlt
  simp [ProductRepository.get_by_id, hv, hr, hfind]

/-- C1: for every valid product creation input, `ProductRepository.create`
returns a record whose `id` is a non-empty string, and `get_by_id` on that
id against the post-create store returns a record equal to the created
one. -/
theorem c1_create_then_get_by_id (nowC nowU : Nat) (p : ProductCreate) (c : Collection)
    (hvalid : p.valid = true) (hlt : c.nextOid < 16 ^ 24) :
    ∃ r c', ProductRepository.create nowC nowU p c = (.ok r, c') ∧
      r.id ≠ "" ∧ ProductRepository.get_by_id r.id c' = .ok r := by
  obtain ⟨found, hfind, hoid⟩ :=
    find?_append_singleton c.docs
      ⟨c.nextOid, p.name, p.description, p.price, p.category, nowC, nowU⟩ c.nextOid rfl
  refine ⟨convert_to_product_in_db found,
    ⟨c.docs ++ [⟨c.nextOid, p.name, p.description, p.price, p.category, nowC, nowU⟩],
      c.nextOid + 1⟩, ?_, ?_, ?_⟩
  · simp only [ProductRepository.create, Collection.find_one]
    rw [hfind]
  · exact oidToString_ne_empty found.oid
  · have hid : (convert_to_product_in_db found).id = oidToString c.nextOid := by
      simp [convert_to_product_in_db, hoid]
    rw [hid]
    refine get_by_id_of_find_one _ c.nextOid found hlt ?_
    simp only [Collection.find_one]
    exact hfind

/-- C1 witness at a concrete input: the test-suite product against an empty
store. -/
theorem c1_create_then_get_by_id_witness :
    ({ name := "Test Product", description := some "A test product",
       price := 100, category := "Test" } : ProductCreate).valid = true ∧
    (0 : Nat) < 16 ^ 24 ∧
    ∃ r c', ProductRepository.create 0 0
        { name := "Test Product", description := some "A test product",
          price := 100, category := "Test" }
        { docs := [], nextOid := 0 } = (.ok r, c') ∧
      r.id ≠ "" ∧ ProductRepository.get_by_id r.id c' = .ok r :=
  ⟨by decide, by norm_num,
   c1_create_then_get_by_id 0 0
     { name := "Test Product", description := some "A test product",
       price := 100, category := "Test" }
     { docs := [], nextOid := 0 } (by decide) (by norm_num)⟩

/-- C6: the `get_atletas` handler annotates a parameter with the name
`Params`, which neither the imports nor any earlier module-level binding of
`workoutapi.py` define, so evaluating the handler's definition (which
Python does at module load) fails with an unbound-identifier error. -/
theorem c6_get_atletas_params_unbound :
    "Params" ∈ get_atletas_param_type_names ∧
    workoutapi_resolves "Params" = false ∧
    get_atletas_def_evaluates = false := by
  decide

/-- C9 (failing-input evaluation): the athlete listing handler cannot be
defined at all — its annotation names do not all resolve — while every
other route handler's annotation names do resolve, so the failure is
specific to `get_atletas`. -/
theorem c9_get_atletas_not_definable :
    get_atletas_def_evaluates = false ∧
    workoutapi_other_handler_param_type_names.all
      (fun l => l.all workoutapi_resolves) = true := by
  decide

/-- C2: creating an athlete whose cpf equals a persisted one is re-signaled
as a 303 conflict whose message contains the offending cpf value, with the
transaction rolled back (the store is returned unchanged, so no partial row
is persisted); any integrity-error message not naming cpf yields the
generic 400 response. -/
theorem c2_duplicate_cpf_conflict :
    (∀ (a : AtletaCreate) (db : WorkoutDB), (∃ r ∈ db.atletas, r.cpf = a.cpf) →
      create_atleta a db =
        (.error { status_code := 303,
                  detail := "Já existe um atleta cadastrado com o cpf: " ++ a.cpf }, db) ∧
      strContains ("Já existe um atleta cadastrado com o cpf: " ++ a.cpf) a.cpf = true) ∧
    (∀ (a : AtletaCreate) (e : String), strContains (pyLower e) "cpf" = false →
      create_atleta_error_response a e =
        { status_code := 400, detail := "Erro de integridade dos dados" }) := by
  constructor
  · intro a db hdup
    have hany : db.atletas.any (fun r => r.cpf == a.cpf) = true := by
      obtain ⟨r, hr, hcpf⟩ := hdup
      exact List.any_eq_true.mpr ⟨r, hr, by simp [hcpf]⟩
    constructor
    · have hmsg : create_atleta_error_response a
          "(sqlite3.IntegrityError) UNIQUE constraint failed: atletas.cpf" =
          { status_code := 303,
            detail := "Já existe um atleta cadastrado com o cpf: " ++ a.cpf } := by
        have hc : strContains
            (pyLower "(sqlite3.IntegrityError) UNIQUE constraint failed: atletas.cpf")
            "cpf" = true := by decide
        simp [create_atleta_error_response, hc]
      simp [create_atleta, WorkoutDB.insertAtleta, hany, hmsg]
    · exact strContains_append_right "Já existe um atleta cadastrado com o cpf: " a.cpf
  · intro a e he
    simp [create_atleta_error_response, he]

def c2atleta : AtletaCreate :=
  { nome := "Joao", cpf := "12345678901", idade := 25, peso := 75, altura := 170,
    sexo := "M", centro_treinamento_id := 1, categoria_id := 1 }

def c2row : AtletaRow :=
  { id := 1, nome := "Maria", cpf := "12345678901", idade := 30, peso := 60,
    altura := 160, sexo := "F", centro_treinamento_id := 1, categoria_id := 1 }

def c2db : WorkoutDB :=
  { centros := [{ id := 1, nome := "CT King", endereco := none, proprietario := none }],
    categorias := [{ id := 1, nome := "Scale" }],
    atletas := [c2row],
    nextAtletaId := 2 }

/-- C2 witness: a second athlete with the persisted cpf `12345678901` gets
the 303 conflict naming it and the store is unchanged; a foreign-key
integrity message yields the generic 400. -/
theorem c2_duplicate_cpf_conflict_witness :
    (∃ r ∈ c2db.atletas, r.cpf = c2atleta.cpf) ∧
    (create_atleta c2atleta c2db =
        (.error { status_code := 303,
                  detail := "Já existe um atleta cadastrado com o cpf: " ++ c2atleta.cpf }, c2db) ∧
      strContains ("Já existe um atleta cadastrado com o cpf: " ++ c2atleta.cpf)
        c2atleta.cpf = true) ∧
    strContains (pyLower "FOREIGN KEY constraint failed") "cpf" = false ∧
    create_atleta_error_response c2atleta "FOREIGN KEY constraint failed" =
      { status_code := 400, detail := "Erro de integridade dos dados" } :=
  ⟨⟨c2row, by decide, rfl⟩,
   c2_duplicate_cpf_conflict.1 c2atleta c2db ⟨c2row, by decide, rfl⟩,
   by decide,
   c2_duplicate_cpf_conflict.2 c2atleta "FOREIGN KEY constraint failed" (by decide)⟩

/-- C10: the athlete update schema exposes no cpf field, so a single
`applyAtletaUpdate` preserves both primary key and cpf, and no sequence of
`update_atleta` calls can change the (id, cpf) column of the store. -/
theorem c10_update_never_changes_cpf :
    (∀ (r : AtletaRow) (u : AtletaUpdate),
      (applyAtletaUpdate r u).cpf = r.cpf ∧ (applyAtletaUpdate r u).id = r.id) ∧
    (∀ (db : WorkoutDB) (steps : List (Nat × AtletaUpdate)),
      ((steps.foldl (fun d s => (update_atleta s.1 s.2 d).2) db).atletas.map
        (fun r => (r.id, r.cpf))) = db.atletas.map (fun r => (r.id, r.cpf))) := by
  constructor
  · intro r u
    exact ⟨rfl, rfl⟩
  · have hfirst : ∀ (i : Nat) (u : AtletaUpdate) (l : List AtletaRow),
        (update_first_atleta i u l).map (fun r => (r.id, r.cpf)) =
          l.map (fun r => (r.id, r.cpf)) := by
      intro i u l
      induction l with
      | nil => rfl
      | cons r rest ih =>
        by_cases h : (r.id == i) = true
        · simp [update_first_atleta, h, applyAtletaUpdate]
        · have hf : (r.id == i) = false := by simpa using h
          simp [update_first_atleta, hf, ih]
    have hstep : ∀ (db : WorkoutDB) (i : Nat) (u : AtletaUpdate),
        ((update_atleta i u db).2).atletas.map (fun r => (r.id, r.cpf)) =
          db.atletas.map (fun r => (r.id, r.cpf)) := by
      intro db i u
      cases hfind : db.atletas.find? (fun r => r.id == i) with
      | none => simp [update_atleta, hfind]
      | some r0 => simp [update_atleta, hfind, hfirst]
    intro db steps
    induction steps generalizing db with
    | nil => rfl
    | cons s rest ih =>
      rw [List.foldl_cons, ih, hstep]

def emptyCollection : Collection := { docs := [], nextOid := 0 }

/-- C3 counterexample: a malformed id and a well-formed absent id both
yield 404, but the observable responses differ — the detail message of the
malformed case is `Invalid product ID` while the absent case names the id —
so a caller can distinguish the two cases, contradicting the claim as
stated. -/
theorem c3_responses_distinguishable_cex :
    get_product "xyz" emptyCollection =
      .error { status_code := 404, detail := "Invalid product ID" } ∧
    get_product "aaaaaaaaaaaaaaaaaaaaaaaa" emptyCollection =
      .error { status_code := 404,
               detail := "Product with id aaaaaaaaaaaaaaaaaaaaaaaa not found" } ∧
    ({ status_code := 404, detail := "Invalid product ID" } : HTTPError) ≠
      { status_code := 404,
        detail := "Product with id aaaaaaaaaaaaaaaaaaaaaaaa not found" } := by
  refine ⟨rfl, rfl, by decide⟩

/-- C3 amended: for every id that is malformed or matches no stored
product, all three id-taking handlers (`get_product`, `update_product`,
`delete_product`) signal the same not-found condition in the sense of the
same exception kind mapped to the same 404 status code; only the detail
message distinguishes the malformed case from the absent one. -/
theorem c3_malformed_and_absent_both_404 (pid : String) (now : Nat)
    (u : ProductUpdate) (c : Collection)
    (h : ObjectId_is_valid pid = false ∨ c.find_one (hexToNat pid) = none) :
    (∃ m, get_product pid c = .error { status_code := 404, detail := m }) ∧
    (∃ m, (update_product now pid u c).1 = .error { status_code := 404, detail := m }) ∧
    (∃ m, (delete_product pid c).1 = .error { status_code := 404, detail := m }) := by
  rcases h with hbad | hnone
  · refine ⟨⟨"Invalid product ID", ?_⟩, ⟨"Invalid product ID", ?_⟩,
      ⟨"Invalid product ID", ?_⟩⟩
    · simp [get_product, ProductRepository.get_by_id, hbad]
    · simp [update_product, ProductRepository.update, hbad]
    · simp [delete_product, ProductRepository.delete, hbad]
  · cases hv : ObjectId_is_valid pid with
    | false =>
      refine ⟨⟨"Invalid product ID", ?_⟩, ⟨"Invalid product ID", ?_⟩,
        ⟨"Invalid product ID", ?_⟩⟩
      · simp [get_product, ProductRepository.get_by_id, hv]
      · simp [update_product, ProductRepository.update, hv]
      · simp [delete_product, ProductRepository.delete, hv]
    | true =>
      have hfriendly : (¬ ObjectId_is_valid pid = false) := by simp [hv]
      refine ⟨⟨"Product with id " ++ pid ++ " not found", ?_⟩,
        ⟨"Product with id " ++ pid ++ " not found", ?_⟩,
        ⟨"Product with id " ++ pid ++ " not found", ?_⟩⟩
      · simp [get_product, ProductRepository.get_by_id, hv, hnone]
      · have hupd : ∀ w : ProductUpdate,
            update_first (hexToNat pid) w c.docs = none := by
          intro w
          exact (update_first_eq_none_iff (hexToNat pid) w c.docs).mpr hnone
        simp [update_product, ProductRepository.update, hv, Collection.update_one, hupd]
      · have hdel : delete_first (hexToNat pid) c.docs = none :=
          (delete_first_eq_none_iff (hexToNat pid) c.docs).mpr hnone
        simp [delete_product, ProductRepository.delete, hv, Collection.delete_one, hdel]

/-- C3 amended witness: the malformed id `xyz` on the empty store. -/
theorem c3_malformed_and_absent_both_404_witness :
    (ObjectId_is_valid "xyz" = false ∨
      emptyCollection.find_one (hexToNat "xyz") = none) ∧
    ((∃ m, get_product "xyz" emptyCollection =
        .error { status_code := 404, detail := m }) ∧
     (∃ m, (update_product 0 "xyz"
        { name := none, description := none, price := none, category := none,
          updated_at := none } emptyCollection).1 =
        .error { status_code := 404, detail := m }) ∧
     (∃ m, (delete_product "xyz" emptyCollection).1 =
        .error { status_code := 404, detail := m })) :=
  ⟨Or.inl (by decide),
   c3_malformed_and_absent_both_404 "xyz" 0
     { name := none, description := none, price := none, category := none,
       updated_at := none } emptyCollection (Or.inl (by decide))⟩

/-- C8: for every id matching no stored product (malformed included), the
delete handler answers 404 rather than a successful 204; and for every
well-formed id the data-access delete returns a boolean that is true
exactly when a record existed, removing it when so and leaving the store
untouched otherwise. -/
theorem c8_delete_not_found_semantics :
    (∀ (pid : String) (c : Collection),
      (ObjectId_is_valid pid = false ∨ c.find_one (hexToNat pid) = none) →
      ∃ m, (delete_product pid c).1 = .error { status_code := 404, detail := m }) ∧
    (∀ (pid : String) (c : Collection), ObjectId_is_valid pid = true →
      ∃ b c', ProductRepository.delete pid c = (.ok b, c') ∧
        (b = true ↔ ¬ c.find_one (hexToNat pid) = none) ∧
        (b = true → c'.docs.length + 1 = c.docs.length) ∧
        (b = false → c' = c)) := by
  constructor
  · intro pid c h
    rcases h with hbad | hnone
    · exact ⟨"Invalid product ID",
        by simp [delete_product, ProductRepository.delete, hbad]⟩
    · cases hv : ObjectId_is_valid pid with
      | false =>
        exact ⟨"Invalid product ID",
          by simp [delete_product, ProductRepository.delete, hv]⟩
      | true =>
        have hdel : delete_first (hexToNat pid) c.docs = none :=
          (delete_first_eq_none_iff (hexToNat pid) c.docs).mpr hnone
        exact ⟨"Product with id " ++ pid ++ " not found", by
          simp [delete_product, ProductRepository.delete, hv,
            Collection.delete_one, hdel]⟩
  · intro pid c hv
    have hfriendly : (¬ ObjectId_is_valid pid = false) := by simp [hv]
    cases hdel : delete_first (hexToNat pid) c.docs with
    | none =>
      have hfind : c.find_one (hexToNat pid) = none :=
        (delete_first_eq_none_iff (hexToNat pid) c.docs).mp hdel
      refine ⟨false, c, ?_, ?_, ?_, ?_⟩
      · simp [ProductRepository.delete, hv, Collection.delete_one, hdel]
      · simp [hfind]
      · intro hcontra; cases hcontra
      · intro _; rfl
    | some docs' =>
      have hfind : ¬ c.find_one (hexToNat pid) = none := by
        intro hcontra
        rw [(delete_first_eq_none_iff (hexToNat pid) c.docs).mpr hcontra] at hdel
        cases hdel
      refine ⟨true, { c with docs := docs' }, ?_, ?_, ?_, ?_⟩
      · simp [ProductRepository.delete, hv, Collection.delete_one, hdel]
      · simp [hfind]
      · intro _
        exact delete_first_length (hexToNat pid) c.docs docs' hdel
      · intro hcontra; cases hcontra

/-- C8 witness: the malformed id `xyz` gets 404 from the handler, and the
repository delete on a well-formed absent id returns the boolean `false`
leaving the store untouched. -/
theorem c8_delete_not_found_semantics_witness :
    (ObjectId_is_valid "xyz" = false ∨
      emptyCollection.find_one (hexToNat "xyz") = none) ∧
    (∃ m, (delete_product "xyz" emptyCollection).1 =
      .error { status_code := 404, detail := m }) ∧
    ObjectId_is_valid "aaaaaaaaaaaaaaaaaaaaaaaa" = true ∧
    (∃ b c', ProductRepository.delete "aaaaaaaaaaaaaaaaaaaaaaaa" emptyCollection =
        (.ok b, c') ∧
      (b = true ↔ ¬ emptyCollection.find_one (hexToNat "aaaaaaaaaaaaaaaaaaaaaaaa") = none) ∧
      (b = true → c'.docs.length + 1 = emptyCollection.docs.length) ∧
      (b = false → c' = emptyCollection)) :=
  ⟨Or.inl (by decide),
   c8_delete_not_found_semantics.1 "xyz" emptyCollection (Or.inl (by decide)),
   by decide,
   c8_delete_not_found_semantics.2 "aaaaaaaaaaaaaaaaaaaaaaaa" emptyCollection (by decide)⟩

def c4doc : ProductDoc :=
  { oid := 0, name := "Test Product", description := none, price := 100,
    category := "Test", created_at := 0, updated_at := 0 }

def c4store : Collection := { docs := [c4doc], nextOid := 1 }

def c4upd : ProductUpdate :=
  { name := none, description := none, price := some 2, category := none,
    updated_at := none }

/-- C4 counterexample: a partial update supplying only `price` also changes
the stored `updated_at` field (it is refreshed to the server time), so not
every field other than the supplied one stays byte-identical. -/
theorem c4_updated_at_not_preserved_cex :
    c4upd.setCount = 1 ∧ c4upd.price.isSome = true ∧ c4upd.updated_at = none ∧
    c4store.docs.map (fun d => d.updated_at) = [0] ∧
    ((ProductRepository.update 1 (oidToString 0) c4upd c4store).2).docs.map
      (fun d => d.updated_at) = [1] := by
  decide

/-- C4 amended: after a partial update with exactly one field set, every
field of every stored product other than the supplied field and the
`updated_at` timestamp is identical to its pre-update value; `updated_at`
of the touched document is refreshed to the server time unless it is itself
the supplied field, in which case it takes the supplied value. -/
theorem c4_partial_update_frame (now : Nat) (pid : String) (u : ProductUpdate)
    (c : Collection) (hone : u.setCount = 1) :
    List.Forall₂ (fun d d' =>
        d'.oid = d.oid ∧ d'.created_at = d.created_at ∧
        (u.name = none → d'.name = d.name) ∧
        (u.description = none → d'.description = d.description) ∧
        (u.price = none → d'.price = d.price) ∧
        (u.category = none → d'.category = d.category) ∧
        (d' = d ∨ ((u.updated_at = none → d'.updated_at = now) ∧
          (∀ t, u.updated_at = some t → d'.updated_at = t))))
      c.docs ((ProductRepository.update now pid u c).2).docs := by
  set w := (if u.updated_at.isNone then { u with updated_at := some now } else u)
    with hw
  have hwn : w.name = u.name := by
    rw [hw]; by_cases hnu : u.updated_at.isNone <;> simp [hnu]
  have hwd : w.description = u.description := by
    rw [hw]; by_cases hnu : u.updated_at.isNone <;> simp [hnu]
  have hwp : w.price = u.price := by
    rw [hw]; by_cases hnu : u.updated_at.isNone <;> simp [hnu]
  have hwc : w.category = u.category := by
    rw [hw]; by_cases hnu : u.updated_at.isNone <;> simp [hnu]
  have hwu_none : u.updated_at = none → w.updated_at = some now := by
    intro h; rw [hw]; simp [h]
  have hwu_some : ∀ t, u.updated_at = some t → w.updated_at = some t := by
    intro t h; rw [hw]; simp [h]
  by_cases hv : ObjectId_is_valid pid = false
  · have hsame : (ProductRepository.update now pid u c).2 = c := by
      simp [ProductRepository.update, hv]
    rw [hsame]
    exact List.forall₂_same.mpr fun d _ =>
      ⟨rfl, rfl, fun _ => rfl, fun _ => rfl, fun _ => rfl, fun _ => rfl, Or.inl rfl⟩
  · have hdocs : ((ProductRepository.update now pid u c).2).docs =
        (update_first (hexToNat pid) w c.docs).getD c.docs := by
      rw [hw]
      simp only [ProductRepository.update]
      rw [if_neg hv]
      simp only [update_one_snd_docs]
    rw [hdocs]
    refine List.Forall₂.imp ?_ (forall₂_update_first_getD w (hexToNat pid) c.docs)
    intro d d' hdd
    rcases hdd with rfl | rfl
    · exact ⟨rfl, rfl, fun _ => rfl, fun _ => rfl, fun _ => rfl, fun _ => rfl,
        Or.inl rfl⟩
    · refine ⟨applySet_oid w d, applySet_created_at w d, ?_, ?_, ?_, ?_,
        Or.inr ⟨?_, ?_⟩⟩
      · intro h
        have hn : w.name = none := by rw [hwn, h]
        simp [applySet, hn]
      · intro h
        have hn : w.description = none := by rw [hwd, h]
        simp [applySet, hn]
      · intro h
        have hn : w.price = none := by rw [hwp, h]
        simp [applySet, hn]
      · intro h
        have hn : w.category = none := by rw [hwc, h]
        simp [applySet, hn]
      · intro h
        simp [applySet, hwu_none h]
      · intro t h
        simp [applySet, hwu_some t h]

/-- C4 amended witness: the price-only update against the one-document
store. -/
theorem c4_partial_update_frame_witness :
    c4upd.setCount = 1 ∧
    List.Forall₂ (fun d d' =>
        d'.oid = d.oid ∧ d'.created_at = d.created_at ∧
        (c4upd.name = none → d'.name = d.name) ∧
        (c4upd.description = none → d'.description = d.description) ∧
        (c4upd.price = none → d'.price = d.price) ∧
        (c4upd.category = none → d'.category = d.category) ∧
        (d' = d ∨ ((c4upd.updated_at = none → d'.updated_at = 1) ∧
          (∀ t, c4upd.updated_at = some t → d'.updated_at = t))))
      c4store.docs ((ProductRepository.update 1 (oidToString 0) c4upd c4store).2).docs :=
  ⟨by decide, c4_partial_update_frame 1 (oidToString 0) c4upd c4store (by decide)⟩

/-- The filter dict built by the four-branch if/elif chain of
`list_products` matches a document exactly when the price lies strictly
within whichever bounds were supplied. -/
theorem matchesFilter_four_forms (minp maxp : Option Rat) (d : ProductDoc) :
    matchesFilter
      (match minp, maxp with
        | some m, some M => some { gt := some m, lt := some M }
        | some m, none => some { gt := some m, lt := none }
        | none, some M => some { gt := none, lt := some M }
        | none, none => none) d =
    ((minp.all fun m => decide (m < d.price)) &&
      (maxp.all fun M => decide (d.price < M))) := by
  cases minp <;> cases maxp <;> simp [matchesFilter, Option.all]

def c5doc1 : ProductDoc :=
  { oid := 0, name := "Product 1", description := none, price := 100,
    category := "Test", created_at := 0, updated_at := 0 }

def c5doc2 : ProductDoc :=
  { oid := 1, name := "Product 2", description := none, price := 6000,
    category := "Test", created_at := 0, updated_at := 0 }

def c5doc3 : ProductDoc :=
  { oid := 2, name := "Product 3", description := none, price := 7500,
    category := "Test", created_at := 0, updated_at := 0 }

def c5doc4 : ProductDoc :=
  { oid := 3, name := "Product 4", description := none, price := 9000,
    category := "Test", created_at := 0, updated_at := 0 }

def c5store : Collection :=
  { docs := [c5doc1, c5doc2, c5doc3, c5doc4], nextOid := 4 }

/-- C5: the list operation's price filter supports the four forms (no
bound, lower-only, upper-only, both) with strict inequalities on both ends
— for all inputs the returned page is exactly the strictly-in-bounds
documents in order, offset and limited — and on the store holding prices
100, 6000, 7500, 9000 the query with bounds 5000 and 8000 returns exactly
the two products priced 6000 and 7500. -/
theorem c5_price_filter_four_forms :
    (∀ (skip limit : Nat) (minp maxp : Option Rat) (c : Collection),
      ProductUseCases.list_products skip limit minp maxp c =
        (((c.docs.filter (fun d =>
            (minp.all fun m => decide (m < d.price)) &&
            (maxp.all fun M => decide (d.price < M)))).drop skip).take limit).map
          convert_to_product_in_db) ∧
    (ProductUseCases.list_products 0 10 (some 5000) (some 8000) c5store).map
      (fun r => r.price) = [6000, 7500] ∧
    ProductUseCases.list_products 0 10 (some 5000) (some 8000) c5store =
      [convert_to_product_in_db c5doc2, convert_to_product_in_db c5doc3] := by
  refine ⟨?_, by decide, by decide⟩
  intro skip limit minp maxp c
  simp only [ProductUseCases.list_products, ProductRepository.get_all]
  rw [List.filter_congr (fun x _ => matchesFilter_four_forms minp maxp x)]

def c7doc : ProductDoc :=
  { oid := 0, name := "Test Product", description := none, price := 100,
    category := "Test", created_at := 0, updated_at := 0 }

def c7store : Collection := { docs := [c7doc], nextOid := 1 }

def c7upd : ProductUpdate :=
  { name := some "Updated Name", description := none, price := none,
    category := none, updated_at := none }

def c7updExplicit : ProductUpdate :=
  { name := none, description := none, price := none, category := none,
    updated_at := some 42 }

/-- C7: a successful update stores the server-side current time in
`updated_at` when the caller did not supply one, and the supplied value
when the caller did. -/
theorem c7_update_refreshes_timestamp (now : Nat) (pid : String) (u : ProductUpdate)
    (c : Collection) (d : ProductDoc)
    (hv : ObjectId_is_valid pid = true)
    (hfind : c.find_one (hexToNat pid) = some d) :
    ∃ r c', ProductRepository.update now pid u c = (.ok r, c') ∧
      (u.updated_at = none → r.updated_at = now) ∧
      (∀ t, u.updated_at = some t → r.updated_at = t) := by
  set w := (if u.updated_at.isNone then { u with updated_at := some now } else u)
    with hw
  obtain ⟨l', hupd, hfind'⟩ :=
    update_first_find (hexToNat pid) w c.docs d
      (by simpa [Collection.find_one] using hfind)
  have hv' : ¬ ObjectId_is_valid pid = false := by simp [hv]
  refine ⟨convert_to_product_in_db (applySet w d), { c with docs := l' }, ?_, ?_, ?_⟩
  · simp only [ProductRepository.update]
    rw [if_neg hv']
    rw [← hw]
    simp [Collection.update_one, hupd, Collection.find_one, hfind']
  · intro h
    have hwu : w.updated_at = some now := by rw [hw]; simp [h]
    simp [convert_to_product_in_db, applySet, hwu]
  · intro t h
    have hwu : w.updated_at = some t := by rw [hw]; simp [h]
    simp [convert_to_product_in_db, applySet, hwu]

/-- C7 witness: a name-only update stores the server time 5; an update
explicitly supplying `updated_at = 42` stores 42. -/
theorem c7_update_refreshes_timestamp_witness :
    ObjectId_is_valid (oidToString 0) = true ∧
    c7store.find_one (hexToNat (oidToString 0)) = some c7doc ∧
    (∃ r c', ProductRepository.update 5 (oidToString 0) c7upd c7store = (.ok r, c') ∧
      (c7upd.updated_at = none → r.updated_at = 5) ∧
      (∀ t, c7upd.updated_at = some t → r.updated_at = t)) ∧
    (∃ r c', ProductRepository.update 5 (oidToString 0) c7updExplicit c7store =
        (.ok r, c') ∧
      (c7updExplicit.updated_at = none → r.updated_at = 5) ∧
      (∀ t, c7updExplicit.updated_at = some t → r.updated_at = t)) :=
  ⟨by decide, by decide,
   c7_update_refreshes_timestamp 5 (oidToString 0) c7upd c7store c7doc
     (by decide) (by decide),
   c7_update_refreshes_timestamp 5 (oidToString 0) c7updExplicit c7store c7doc
     (by decide) (by decide)⟩
